import Mathlib

/-!
Verification of the tradesyncer trade-copier core against its specification.

The definitions below are a shallow embedding of the TypeScript source:

* `TradeCopierEngine` (copier engine: `handleMasterTrade`, `copyTradeToSlave`,
  `calculateScaledQuantity`, `checkRiskRules`, `mapTradeStatus`);
* the Prisma migration `20260116235924_newmigration` (referential actions and
  uniqueness constraints, embedded as `deleteCopier` / `deleteTradingAccount`);
* `AccountsService.connect` (websocket.module.ts);
* `RithmicAdapter.authenticate` (rithmic-adapter.ts);
* `BaseHttpAdapter.placeOrder` / `onTradeUpdate`.

JavaScript numbers are modelled as exact rationals (`Rat`), integer quantities as
`Int`, timestamps as `Int`, nullable columns as `Option`, and a thrown exception
as the `Except.error` / `none` branch of the corresponding result type.
JavaScript truthiness (`x || d`, `if (x)`) on nullable numbers and strings treats
`null`, `0` and `""` as falsy; the `js*` helpers reproduce exactly that.
-/

/-- Enum `TradeSide` of the Prisma schema. -/
inductive TradeSide
  | BUY
  | SELL
deriving DecidableEq, Repr

/-- Enum `TradeType` of the Prisma schema. -/
inductive TradeType
  | MARKET
  | LIMIT
  | STOP
deriving DecidableEq, Repr

/-- Enum `TradeStatus` of the Prisma schema. -/
inductive TradeStatus
  | PENDING
  | FILLED
  | PARTIALLY_FILLED
  | CANCELLED
  | REJECTED
deriving DecidableEq, Repr

/-- Enum `RiskScalingType` of the Prisma schema. -/
inductive RiskScalingType
  | FIXED
  | PERCENTAGE
  | BALANCE_BASED
deriving DecidableEq, Repr

/-- Enum `CopierStatus` of the Prisma schema. -/
inductive CopierStatus
  | STOPPED
  | ACTIVE
  | PAUSED
  | ERROR
deriving DecidableEq, Repr

/-- ExecutionLog levels used by the engine (strings `info` / `warn` / `error`
in the source). -/
inductive LogLevel
  | info
  | warn
  | error
deriving DecidableEq, Repr

/-- JavaScript truthiness of a nullable number: `null` and `0` are falsy
(`if (slaveConfig.dailyLossLimit)` in the source). -/
def jsNumTruthy : Option Rat → Bool
  | none => false
  | some v => v != 0

/-- JavaScript `o || d` on a nullable integer: the default is taken when the
value is `null` or `0`. -/
def jsIntOr (o : Option Int) (d : Int) : Int :=
  match o with
  | none => d
  | some v => if v = 0 then d else v

/-- JavaScript `o || d` on a nullable number: the default is taken when the
value is `null` or `0`. -/
def jsRatOr (o : Option Rat) (d : Rat) : Rat :=
  match o with
  | none => d
  | some v => if v = 0 then d else v

/-- JavaScript truthiness of a nullable string: `null` and `""` are falsy. -/
def jsStrTruthy : Option String → Bool
  | none => false
  | some s => s != ""

/-- The follower (`slave`) `TradingAccount` fields read by the engine. -/
structure SlaveAccount where
  id : String
  accountNumber : String
  currentBalance : Rat
deriving DecidableEq, Repr

/-- A `CopierAccountConfig` row (follower binding). -/
structure SlaveConfig where
  id : String
  copierId : String
  slaveAccountId : String
  scalingType : RiskScalingType
  fixedContracts : Option Int
  percentageScale : Option Rat
  maxContracts : Option Int
  dailyLossLimit : Option Rat
  autoDisable : Bool
  isActive : Bool
  disabledReason : Option String
deriving DecidableEq, Repr

/-- A `Trade` row. -/
structure Trade where
  id : String
  copierId : Option String
  accountId : String
  symbol : String
  side : TradeSide
  type : TradeType
  quantity : Int
  entryPrice : Option Rat
  stopLoss : Option Rat
  takeProfit : Option Rat
  status : TradeStatus
  externalOrderId : Option String
  externalTradeId : Option String
  realizedPnL : Option Rat
  openedAt : Int
  filledAt : Int
  createdAt : Int
deriving DecidableEq, Repr

/-- A normalised execution delivered by the master adapter's stream
(the `masterExecution` argument of `handleMasterTrade`). -/
structure MasterExecution where
  symbol : String
  side : TradeSide
  quantity : Int
  price : Rat
  status : String
  orderId : String
  tradeId : String
  executedAt : Option Int
deriving DecidableEq, Repr

/-- `TradeOrder` of trading-adapter.interface.ts. -/
structure TradeOrder where
  symbol : String
  side : TradeSide
  type : TradeType
  quantity : Int
  stopLoss : Option Rat
  takeProfit : Option Rat
deriving DecidableEq, Repr

/-- `TradeExecution` of trading-adapter.interface.ts. -/
structure TradeExecution where
  orderId : String
  tradeId : String
  symbol : String
  side : TradeSide
  quantity : Int
  price : Rat
  status : String
  executedAt : Option Int
deriving DecidableEq, Repr

/-- A `TradeMapping` row. -/
structure TradeMapping where
  copierId : String
  masterTradeId : String
  slaveTradeId : String
  slaveAccountId : String
  status : String
  errorMessage : Option String
  syncedAt : Option Int
deriving DecidableEq, Repr

/-- An `ExecutionLog` row. -/
structure ExecLogEntry where
  copierId : String
  level : LogLevel
  message : String
  masterTradeId : Option String
  slaveTradeId : Option String
  slaveAccountId : Option String
deriving DecidableEq, Repr

/-- The `copierAccountConfig.update` issued by `checkRiskRules` when the daily
loss limit is exceeded and `autoDisable` is set. -/
structure ConfigDisable where
  configId : String
  isActive : Bool
  disabledReason : String
deriving DecidableEq, Repr

/-- Result of `checkRiskRules` (the `{ allowed, reason? }` object). -/
structure RiskCheck where
  allowed : Bool
  reason : Option String
deriving DecidableEq, Repr

/-- `TradeCopierEngine.mapTradeStatus`: vendor status string to `TradeStatus`,
defaulting to `PENDING`. -/
def mapTradeStatus (status : String) : TradeStatus :=
  if status = "filled" then TradeStatus.FILLED
  else if status = "partially_filled" then TradeStatus.PARTIALLY_FILLED
  else if status = "pending" then TradeStatus.PENDING
  else if status = "cancelled" then TradeStatus.CANCELLED
  else if status = "rejected" then TradeStatus.REJECTED
  else TradeStatus.PENDING

/-- `TradeCopierEngine.calculateScaledQuantity`.  The `FIXED` and `PERCENTAGE`
branches use JavaScript `||` fallbacks (`slaveConfig.fixedContracts ||
masterQuantity`, `slaveConfig.percentageScale || 1.0`), and the
`BALANCE_BASED` branch divides the follower balance by the hard-coded 50000.
`Math.floor` is `Rat.floor`.  The source's `default` arm is unreachable for
the three `RiskScalingType` constructors. -/
def calculateScaledQuantity (masterQuantity : Int) (slaveConfig : SlaveConfig)
    (slaveAccount : SlaveAccount) : Int :=
  match slaveConfig.scalingType with
  | RiskScalingType.FIXED => jsIntOr slaveConfig.fixedContracts masterQuantity
  | RiskScalingType.PERCENTAGE =>
      let percentage : Rat := jsRatOr slaveConfig.percentageScale 1
      Rat.floor ((masterQuantity : Rat) * percentage)
  | RiskScalingType.BALANCE_BASED =>
      let balanceRatio : Rat := slaveAccount.currentBalance / 50000
      Rat.floor ((masterQuantity : Rat) * balanceRatio)

/-- The `where` clause of the `prisma.trade.findMany` query in
`checkRiskRules`: same copier, the follower's account, created since local
midnight (`today.setHours(0,0,0,0)`, passed in as `dayStart`), status in
`["FILLED"]`. -/
def isTodayFilledSlaveTrade (copierId slaveAccountId : String) (dayStart : Int)
    (t : Trade) : Bool :=
  t.copierId == some copierId && t.accountId == slaveAccountId &&
    decide (dayStart ≤ t.createdAt) && t.status == TradeStatus.FILLED

/-- The `reduce` in `checkRiskRules`: sum of `trade.realizedPnL || 0` over the
trades returned by the daily query. -/
def dailyLossOf (trades : List Trade) (copierId slaveAccountId : String)
    (dayStart : Int) : Rat :=
  ((trades.filter (isTodayFilledSlaveTrade copierId slaveAccountId dayStart)).map
    (fun t => t.realizedPnL.getD 0)).sum

/-- The rejection / disable message built by `checkRiskRules`
(template `Daily loss limit exceeded: ${dailyLoss}`). -/
def riskReason (dailyLoss : Rat) : String :=
  "Daily loss limit exceeded: " ++ toString dailyLoss

/-- `TradeCopierEngine.checkRiskRules`.  The gate is armed by JavaScript
truthiness of `dailyLossLimit` (so `null` and `0` both disable it); it rejects
when `|dailyLoss| ≥ dailyLossLimit` and, when `autoDisable` is set, also issues
the config update captured in the second component. -/
def checkRiskRules (trades : List Trade) (copierId : String)
    (slaveConfig : SlaveConfig) (dayStart : Int) : RiskCheck × Option ConfigDisable :=
  if jsNumTruthy slaveConfig.dailyLossLimit then
    if |dailyLossOf trades copierId slaveConfig.slaveAccountId dayStart| ≥
        slaveConfig.dailyLossLimit.getD 0 then
      (⟨false, some (riskReason (dailyLossOf trades copierId slaveConfig.slaveAccountId dayStart))⟩,
        if slaveConfig.autoDisable then
          some ⟨slaveConfig.id, false,
            riskReason (dailyLossOf trades copierId slaveConfig.slaveAccountId dayStart)⟩
        else none)
    else (⟨true, none⟩, none)
  else (⟨true, none⟩, none)

/-- The `slaveOrder` built in `copyTradeToSlave`: symbol, side, stop-loss and
take-profit are preserved from the master trade, the type is always `MARKET`,
and the quantity is the scaled quantity. -/
def buildSlaveOrder (masterTrade : Trade) (scaledQuantity : Int) : TradeOrder :=
  { symbol := masterTrade.symbol
    side := masterTrade.side
    type := TradeType.MARKET
    quantity := scaledQuantity
    stopLoss := masterTrade.stopLoss
    takeProfit := masterTrade.takeProfit }

/-- Everything one `copyTradeToSlave` call writes: application-logger warnings
(`this.logger.warn`), the order handed to the follower adapter, created `Trade`
rows, created `TradeMapping` rows, created `ExecutionLog` rows, and the config
disable update issued by the risk gate. -/
structure CopyOutcome where
  loggerWarns : List String
  placedOrder : Option TradeOrder
  newTrades : List Trade
  newMappings : List TradeMapping
  newLogs : List ExecLogEntry
  configDisable : Option ConfigDisable
deriving DecidableEq, Repr

/-- `TradeCopierEngine.copyTradeToSlave`.  `placeOrder` is the follower
adapter oracle (indexed by the follower account id); `Except.error` models a
thrown exception from the adapter call, which the source's `catch` turns into
a `TradeMapping` with status `failed`, empty `slaveTradeId` and the error
message, plus an ExecutionLog `error` entry.  A risk rejection only calls
`this.logger.warn` and returns; a scaled quantity `≤ 0` likewise. -/
def copyTradeToSlave (placeOrder : String → TradeOrder → Except String TradeExecution)
    (trades : List Trade) (copierId : String) (masterTrade : Trade)
    (slaveConfig : SlaveConfig) (slaveAccount : SlaveAccount)
    (dayStart now : Int) (slaveTradeId : String) : CopyOutcome :=
  if !(checkRiskRules trades copierId slaveConfig dayStart).1.allowed then
    { loggerWarns := ["Risk rule violated for slave " ++ slaveConfig.slaveAccountId
        ++ ": " ++ (checkRiskRules trades copierId slaveConfig dayStart).1.reason.getD ""]
      placedOrder := none
      newTrades := []
      newMappings := []
      newLogs := []
      configDisable := (checkRiskRules trades copierId slaveConfig dayStart).2 }
  else
    if calculateScaledQuantity masterTrade.quantity slaveConfig slaveAccount ≤ 0 then
      { loggerWarns := ["Scaled quantity is 0 for slave " ++ slaveConfig.slaveAccountId]
        placedOrder := none
        newTrades := []
        newMappings := []
        newLogs := []
        configDisable := none }
    else
      match placeOrder slaveConfig.slaveAccountId
        (buildSlaveOrder masterTrade
          (calculateScaledQuantity masterTrade.quantity slaveConfig slaveAccount)) with
      | Except.ok slaveExecution =>
          { loggerWarns := []
            placedOrder := some (buildSlaveOrder masterTrade
              (calculateScaledQuantity masterTrade.quantity slaveConfig slaveAccount))
            newTrades := [{
              id := slaveTradeId
              copierId := some copierId
              accountId := slaveConfig.slaveAccountId
              symbol := slaveExecution.symbol
              side := slaveExecution.side
              type := TradeType.MARKET
              quantity := slaveExecution.quantity
              entryPrice := some slaveExecution.price
              stopLoss := masterTrade.stopLoss
              takeProfit := masterTrade.takeProfit
              status := mapTradeStatus slaveExecution.status
              externalOrderId := some slaveExecution.orderId
              externalTradeId := some slaveExecution.tradeId
              realizedPnL := none
              openedAt := slaveExecution.executedAt.getD now
              filledAt := slaveExecution.executedAt.getD now
              createdAt := now }]
            newMappings := [{
              copierId := copierId
              masterTradeId := masterTrade.id
              slaveTradeId := slaveTradeId
              slaveAccountId := slaveConfig.slaveAccountId
              status := "synced"
              errorMessage := none
              syncedAt := some now }]
            newLogs := [{
              copierId := copierId
              level := LogLevel.info
              message := "Trade copied to slave account"
              masterTradeId := some masterTrade.id
              slaveTradeId := some slaveTradeId
              slaveAccountId := some slaveConfig.slaveAccountId }]
            configDisable := none }
      | Except.error errMsg =>
          { loggerWarns := []
            placedOrder := some (buildSlaveOrder masterTrade
              (calculateScaledQuantity masterTrade.quantity slaveConfig slaveAccount))
            newTrades := []
            newMappings := [{
              copierId := copierId
              masterTradeId := masterTrade.id
              slaveTradeId := ""
              slaveAccountId := slaveConfig.slaveAccountId
              status := "failed"
              errorMessage := some errMsg
              syncedAt := none }]
            newLogs := [{
              copierId := copierId
              level := LogLevel.error
              message := "Failed to copy trade to slave: " ++ errMsg
              masterTradeId := some masterTrade.id
              slaveTradeId := none
              slaveAccountId := some slaveConfig.slaveAccountId }]
            configDisable := none }

/-- A follower config together with its eagerly loaded `slaveAccount`
(the `include` of the engine's copier query). -/
structure CopierSlave where
  config : SlaveConfig
  account : SlaveAccount
deriving DecidableEq, Repr

/-- The `Copier` row with its eagerly loaded relations. -/
structure Copier where
  id : String
  masterAccountId : String
  status : CopierStatus
  slaveConfigs : List CopierSlave
deriving DecidableEq, Repr

/-- The `where: { isActive: true }` filter of the engine's copier query. -/
def activeSlaveConfigs (copier : Copier) : List CopierSlave :=
  copier.slaveConfigs.filter (fun cs => cs.config.isActive)

/-- The persisted engine state: `Trade`, `TradeMapping` and `ExecutionLog`
tables plus a counter for database-generated trade ids. -/
structure EngineDB where
  trades : List Trade
  mappings : List TradeMapping
  logs : List ExecLogEntry
  disables : List ConfigDisable
  nextId : Nat
deriving DecidableEq, Repr

/-- Database-generated primary key for a freshly inserted `Trade` row. -/
def genTradeId (n : Nat) : String := "trade-" ++ toString n

/-- The master `Trade` row created by `handleMasterTrade` from an incoming
execution (`prisma.trade.create` at the top of the handler). -/
def masterTradeOf (copier : Copier) (masterExecution : MasterExecution)
    (tradeId : String) (now : Int) : Trade :=
  { id := tradeId
    copierId := some copier.id
    accountId := copier.masterAccountId
    symbol := masterExecution.symbol
    side := masterExecution.side
    type := TradeType.MARKET
    quantity := masterExecution.quantity
    entryPrice := some masterExecution.price
    stopLoss := none
    takeProfit := none
    status := mapTradeStatus masterExecution.status
    externalOrderId := some masterExecution.orderId
    externalTradeId := some masterExecution.tradeId
    realizedPnL := none
    openedAt := masterExecution.executedAt.getD now
    filledAt := masterExecution.executedAt.getD now
    createdAt := now }

/-- The fan-out of one master fill: `copier.slaveConfigs.map((config) =>
this.copyTradeToSlave(...))` under `Promise.allSettled`; every follower's copy
runs against the same snapshot of the `Trade` table, and the follower trade id
is the database-generated key for that follower. -/
def fanOut (placeOrder : String → TradeOrder → Except String TradeExecution)
    (trades : List Trade) (copier : Copier) (masterTrade : Trade)
    (dayStart now : Int) : List CopyOutcome :=
  (activeSlaveConfigs copier).map (fun cs =>
    copyTradeToSlave placeOrder trades copier.id masterTrade cs.config cs.account
      dayStart now (masterTrade.id ++ "-" ++ cs.config.slaveAccountId))

/-- Commit the writes of one follower's `copyTradeToSlave` to the database. -/
def applyOutcome (db : EngineDB) (o : CopyOutcome) : EngineDB :=
  { db with
    trades := db.trades ++ o.newTrades
    mappings := db.mappings ++ o.newMappings
    logs := db.logs ++ o.newLogs
    disables := db.disables ++ o.configDisable.toList }

/-- `TradeCopierEngine.handleMasterTrade`.  If the copier is not `ACTIVE` the
execution is dropped.  Otherwise a master `Trade` row is inserted
unconditionally — the migration creates no uniqueness constraint on
`Trade.externalTradeId` (only non-unique indexes on `externalOrderId` etc.),
so `prisma.trade.create` succeeds even when a row with the same external trade
id already exists — and the fan-out writes are applied. -/
def handleMasterTrade (placeOrder : String → TradeOrder → Except String TradeExecution)
    (copier : Copier) (masterExecution : MasterExecution)
    (dayStart now : Int) (db : EngineDB) : EngineDB :=
  if copier.status ≠ CopierStatus.ACTIVE then db
  else
    let masterTrade := masterTradeOf copier masterExecution (genTradeId db.nextId) now
    let db1 : EngineDB := { db with trades := db.trades ++ [masterTrade], nextId := db.nextId + 1 }
    let outcomes := fanOut placeOrder db1.trades copier masterTrade dayStart now
    outcomes.foldl applyOutcome db1

/-- Number of `Trade` rows on the given account carrying the given broker
external trade id. -/
def countMasterTrades (db : EngineDB) (accountId externalTradeId : String) : Nat :=
  db.trades.countP (fun t =>
    t.accountId == accountId && t.externalTradeId == some externalTradeId)

/-- Number of `TradeMapping` rows for the given follower account. -/
def countMappingsFor (db : EngineDB) (slaveAccountId : String) : Nat :=
  db.mappings.countP (fun m => m.slaveAccountId == slaveAccountId)

/-- A `Copier` row as stored relationally (for referential actions). -/
structure CopierRow where
  id : String
  masterAccountId : String
deriving DecidableEq, Repr

/-- The `TradingAccount` fields read by `AccountsService.connect` and the
referential actions. -/
structure TradingAccount where
  id : String
  email : Option String
  password : Option String
  apiKey : Option String
  apiSecret : Option String
  accountNumber : String
  isConnected : Bool
  lastSyncAt : Option Int
  errorMessage : Option String
deriving DecidableEq, Repr

/-- The relational state governed by the migration's foreign keys. -/
structure RelationalDB where
  copiers : List CopierRow
  accounts : List TradingAccount
  configs : List SlaveConfig
  trades : List Trade
  mappings : List TradeMapping
  execLogs : List ExecLogEntry
deriving DecidableEq, Repr

/-- Deleting a `Copier`, following the migration's referential actions:
`Trade.copierId` is `ON DELETE SET NULL`, while `CopierAccountConfig.copierId`,
`TradeMapping.copierId` and `ExecutionLog.copierId` are `ON DELETE CASCADE`. -/
def deleteCopier (db : RelationalDB) (cid : String) : RelationalDB :=
  { db with
    copiers := db.copiers.filter (fun c => c.id != cid)
    configs := db.configs.filter (fun c => c.copierId != cid)
    trades := db.trades.map (fun t =>
      if t.copierId = some cid then { t with copierId := none } else t)
    mappings := db.mappings.filter (fun m => m.copierId != cid)
    execLogs := db.execLogs.filter (fun l => l.copierId != cid) }

/-- Deleting a `TradingAccount`, following the migration's referential
actions: `Trade.accountId` and `Copier.masterAccountId` are
`ON DELETE RESTRICT`, so the deletion is refused while any such row
references the account; `CopierAccountConfig.slaveAccountId` is
`ON DELETE CASCADE`. -/
def deleteTradingAccount (db : RelationalDB) (aid : String) : Except String RelationalDB :=
  if db.trades.any (fun t => t.accountId == aid) then
    Except.error "restricted by Trade_accountId_fkey"
  else if db.copiers.any (fun c => c.masterAccountId == aid) then
    Except.error "restricted by Copier_masterAccountId_fkey"
  else
    Except.ok { db with
      accounts := db.accounts.filter (fun a => a.id != aid)
      configs := db.configs.filter (fun c => c.slaveAccountId != aid) }

/-- `AccountsService.connect` (websocket.module.ts).  `adapterConnect n` is
the result of the n-th call to the adapter's `connect`; the method performs
exactly one call.  On success it persists `isConnected=true`, `lastSyncAt=now`
and clears `errorMessage`; on failure the `catch` persists
`isConnected=false` and the error message and RETURNS the updated row — the
exception is not rethrown, so the overall result is `Except.ok` in both
branches. -/
def accountsServiceConnect (adapterConnect : Nat → Except String Unit)
    (account : TradingAccount) (now : Int) : Except String TradingAccount :=
  match adapterConnect 0 with
  | Except.ok _ =>
      Except.ok { account with
        isConnected := true
        lastSyncAt := some now
        errorMessage := none }
  | Except.error errMsg =>
      Except.ok { account with
        isConnected := false
        errorMessage := some errMsg }

/-- The `authEndpoints` array of `RithmicAdapter.authenticate` — seven
endpoints, in source order. -/
def authEndpoints : List String :=
  ["/auth/login", "/api/auth/login", "/v1/auth/login", "/login", "/api/login",
    "/authenticate", "/api/authenticate"]

/-- The three credential shapes tried by `RithmicAdapter.authenticate`. -/
inductive CredShape
  | emailPassword
  | apiKeySecret
  | usernamePassword
deriving DecidableEq, Repr

/-- The `ConnectionConfig` fields read by `RithmicAdapter.authenticate`. -/
structure RithmicConfig where
  email : Option String
  password : Option String
  apiKey : Option String
  apiSecret : Option String
  accountNumber : String
deriving DecidableEq, Repr

/-- The source's guard for each credential block: `config.email &&
config.password`, `config.apiKey && config.apiSecret`, `config.password`
(JavaScript truthiness on strings). -/
def shapeEnabled (cfg : RithmicConfig) : CredShape → Bool
  | CredShape.emailPassword => jsStrTruthy cfg.email && jsStrTruthy cfg.password
  | CredShape.apiKeySecret => jsStrTruthy cfg.apiKey && jsStrTruthy cfg.apiSecret
  | CredShape.usernamePassword => jsStrTruthy cfg.password

/-- `response.status === 200 || response.status === 201` — the only statuses
`RithmicAdapter.authenticate` accepts. -/
def isAuthSuccess (status : Nat) : Bool := status == 200 || status == 201

/-- One credential-shape loop of `RithmicAdapter.authenticate`: scan the seven
endpoints in order and return the first that answers 200/201; every other
response, including 4xx and thrown 5xx errors, just continues to the next
endpoint. -/
def tryShape (respond : String → CredShape → Nat) (shape : CredShape) :
    Option (CredShape × String) :=
  (authEndpoints.find? (fun ep => isAuthSuccess (respond ep shape))).map
    (fun ep => (shape, ep))

/-- `RithmicAdapter.authenticate`.  The OUTER iteration is over credential
shapes — email+password first, then apiKey+apiSecret, then
username(=accountNumber)+password — and the INNER iteration is over the seven
`authEndpoints`; `none` models the thrown
`Authentication failed: ...` error after every combination failed. -/
def rithmicAuthenticate (respond : String → CredShape → Nat)
    (cfg : RithmicConfig) : Option (CredShape × String) :=
  match (if shapeEnabled cfg CredShape.emailPassword then
      tryShape respond CredShape.emailPassword else none) with
  | some r => some r
  | none =>
    match (if shapeEnabled cfg CredShape.apiKeySecret then
        tryShape respond CredShape.apiKeySecret else none) with
    | some r => some r
    | none =>
        if shapeEnabled cfg CredShape.usernamePassword then
          tryShape respond CredShape.usernamePassword
        else none

/-- The endpoint list named by claim C9: the seven source endpoints plus
`/oauth/token`. -/
def claimAuthEndpoints : List String := authEndpoints ++ ["/oauth/token"]

/-- The credential-shape order named by claim C9. -/
def claimShapes : List CredShape :=
  [CredShape.emailPassword, CredShape.apiKeySecret, CredShape.usernamePassword]

/-- Modelled from the claim's words (C9), for comparison with
`rithmicAuthenticate`: iterate auth ENDPOINTS in the order
`claimAuthEndpoints` (including `/oauth/token`) and, for each endpoint, try
the credential shapes in order; the first 2xx response wins; a 4xx moves to
the next endpoint. -/
def authenticateClaimOrder (respond : String → CredShape → Nat)
    (cfg : RithmicConfig) : Option (String × CredShape) :=
  claimAuthEndpoints.findSome? (fun ep =>
    (claimShapes.filter (shapeEnabled cfg)).findSome? (fun sh =>
      if 200 ≤ respond ep sh ∧ respond ep sh < 300 then some (ep, sh) else none))

/-- The `BaseHttpAdapter` state read by `placeOrder` / `onTradeUpdate`:
the `connected` flag and the `tradeCallbacks` array (callbacks are identified
by opaque numbers). -/
structure AdapterState where
  connected : Bool
  tradeCallbacks : List Nat
deriving DecidableEq, Repr

/-- `BaseHttpAdapter.onTradeUpdate`: push the callback onto
`tradeCallbacks`. -/
def onTradeUpdate (st : AdapterState) (callbackId : Nat) : AdapterState :=
  { st with tradeCallbacks := st.tradeCallbacks ++ [callbackId] }

deriving instance DecidableEq for Except

/-- What one `BaseHttpAdapter.placeOrder` call does: which callbacks were
invoked (in order, each with the execution it received) and the value returned
or exception thrown. -/
structure PlaceOrderResult where
  notified : List (Nat × TradeExecution)
  result : Except String TradeExecution
deriving DecidableEq, Repr

/-- `BaseHttpAdapter.placeOrder`.  Not connected throws; otherwise
`executePlaceOrder` runs and, on success, every callback in `tradeCallbacks`
is invoked with the execution before it is returned; on failure the error is
rethrown and no callback runs. -/
def basePlaceOrder (st : AdapterState)
    (executePlaceOrder : TradeOrder → Except String TradeExecution)
    (order : TradeOrder) : PlaceOrderResult :=
  if !st.connected then
    ⟨[], Except.error "Not connected to trading platform"⟩
  else
    match executePlaceOrder order with
    | Except.ok execution =>
        ⟨st.tradeCallbacks.map (fun cb => (cb, execution)), Except.ok execution⟩
    | Except.error e => ⟨[], Except.error e⟩

/-- Modelled from the claim's words (C3), for comparison with
`calculateScaledQuantity`: `FIXED` falls back to the master quantity only when
`fixedContracts` is null, and `PERCENTAGE` multiplies by `percentageScale` for
every value including 0. -/
def scaledQuantityClaim (masterQuantity : Int) (slaveConfig : SlaveConfig)
    (slaveAccount : SlaveAccount) : Int :=
  match slaveConfig.scalingType with
  | RiskScalingType.FIXED => slaveConfig.fixedContracts.getD masterQuantity
  | RiskScalingType.PERCENTAGE =>
      Rat.floor ((masterQuantity : Rat) * (slaveConfig.percentageScale.getD 1))
  | RiskScalingType.BALANCE_BASED =>
      Rat.floor ((masterQuantity : Rat) * (slaveAccount.currentBalance / 50000))

/-- Modelled from the claim's words (C4), for comparison with
`checkRiskRules`: whenever `dailyLossLimit` is set (any value, including 0)
the gate sums realised P&L over ALL `FILLED` trades on the follower account in
the current day — with no copier filter — and rejects exactly when the
absolute sum reaches the limit. -/
def riskRejectsClaim (trades : List Trade) (slaveConfig : SlaveConfig)
    (dayStart : Int) : Bool :=
  match slaveConfig.dailyLossLimit with
  | none => false
  | some limit =>
      let s := ((trades.filter (fun t =>
          t.accountId == slaveConfig.slaveAccountId &&
          decide (dayStart ≤ t.createdAt) &&
          t.status == TradeStatus.FILLED)).map
        (fun t => t.realizedPnL.getD 0)).sum
      decide (|s| ≥ limit)

/-- `Rat.floor` agrees with the `Int.floor` of the `FloorRing` instance. -/
theorem rat_floor_eq_intFloor (q : Rat) : Rat.floor q = ⌊q⌋ := by
  rw [Rat.floor_def', Rat.floor_def]

/-- A follower adapter oracle whose `placeOrder` always succeeds, echoing the
order back as a filled execution. -/
def okPlace : String → TradeOrder → Except String TradeExecution := fun _ ord =>
  Except.ok
    { orderId := "so-1"
      tradeId := "sx-1"
      symbol := ord.symbol
      side := ord.side
      quantity := ord.quantity
      price := 5000
      status := "filled"
      executedAt := some 1 }

/-- Sample active follower config: FIXED scaling at 1 contract, no limits. -/
def baseCfg : SlaveConfig :=
  { id := "cfg-1", copierId := "cop-1", slaveAccountId := "S",
    scalingType := RiskScalingType.FIXED, fixedContracts := some 1,
    percentageScale := none, maxContracts := none, dailyLossLimit := none,
    autoDisable := true, isActive := true, disabledReason := none }

/-- Sample follower account with the reference balance. -/
def slaveAcct : SlaveAccount :=
  { id := "S", accountNumber := "S-001", currentBalance := 50000 }

/-- Sample master trade (quantity 3). -/
def mt1 : Trade :=
  { id := "mt-1", copierId := some "cop-1", accountId := "M", symbol := "ES",
    side := TradeSide.BUY, type := TradeType.MARKET, quantity := 3,
    entryPrice := some 5000, stopLoss := none, takeProfit := none,
    status := TradeStatus.FILLED, externalOrderId := some "mo-1",
    externalTradeId := some "ext-1", realizedPnL := none, openedAt := 1,
    filledAt := 1, createdAt := 1 }

/-- Sample master execution (external trade id `ext-1`). -/
def exec1 : MasterExecution :=
  { symbol := "ES", side := TradeSide.BUY, quantity := 1, price := 5000,
    status := "filled", orderId := "mo-1", tradeId := "ext-1", executedAt := some 1 }

/-- Sample copier: ACTIVE, one active follower. -/
def copier1 : Copier :=
  { id := "cop-1", masterAccountId := "M", status := CopierStatus.ACTIVE,
    slaveConfigs := [⟨baseCfg, slaveAcct⟩] }

/-- Empty engine database. -/
def db0 : EngineDB := { trades := [], mappings := [], logs := [], disables := [], nextId := 0 }

/-- Engine state after the first delivery of `exec1`. -/
def c1db1 : EngineDB := handleMasterTrade okPlace copier1 exec1 0 1 db0

/-- Engine state after the duplicate (second) delivery of `exec1`. -/
def c1db2 : EngineDB := handleMasterTrade okPlace copier1 exec1 0 1 c1db1

/-- A FILLED losing trade on follower account `S` today, booked by a DIFFERENT
copier. -/
def tOtherCopier : Trade :=
  { mt1 with
    id := "t-o"
    copierId := some "other-cop"
    accountId := "S"
    realizedPnL := some (-150)
    createdAt := 10 }

/-- The same losing trade booked by copier `cop-1` itself. -/
def tSameCopier : Trade :=
  { tOtherCopier with id := "t-s", copierId := some "cop-1" }

/-- Sample `TradingAccount` used for the accounts-service and schema claims. -/
def acctA : TradingAccount :=
  { id := "A"
    email := none
    password := none
    apiKey := none
    apiSecret := none
    accountNumber := "A-1"
    isConnected := true
    lastSyncAt := none
    errorMessage := none }

/-- C2: the claim is false on the code.  With `fixedContracts = 5` and
`maxContracts = 2` the engine places a follower order of quantity 5 (no clamp
to the interval `[0, maxContracts]`), and with `maxContracts = 0` the follower
is NOT skipped: an order is still placed. -/
theorem C2_counterexample :
  (copyTradeToSlave okPlace [] "cop-1" mt1 { baseCfg with fixedContracts := some 5, maxContracts := some 2 } slaveAcct 0 1 "st-1").placedOrder = some (buildSlaveOrder mt1 5)
  ∧ ({ baseCfg with fixedContracts := some 5, maxContracts := some 2 } : SlaveConfig).maxContracts = some 2
  ∧ ¬((5 : Int) ≤ 2)
  ∧ (copyTradeToSlave okPlace [] "cop-1" mt1 { baseCfg with fixedContracts := some 5, maxContracts := some 0 } slaveAcct 0 1 "st-1").placedOrder = some (buildSlaveOrder mt1 5) := by
  decide

/-- C2 (amended): the engine never reads `maxContracts` — the outcome of a
follower copy is invariant under any change of `maxContracts` — and whenever an
order is placed its quantity is exactly the unclamped scaled quantity (which is
positive); the only quantity-based skip is `scaledQuantity ≤ 0`. -/
theorem C2_amended (place : String → TradeOrder → Except String TradeExecution)
    (trades : List Trade) (cid : String) (mt : Trade) (cfg : SlaveConfig)
    (acct : SlaveAccount) (ds now : Int) (sid : String) :
  (∀ m, copyTradeToSlave place trades cid mt { cfg with maxContracts := m } acct ds now sid
      = copyTradeToSlave place trades cid mt cfg acct ds now sid)
  ∧ (∀ ord, (copyTradeToSlave place trades cid mt cfg acct ds now sid).placedOrder = some ord →
      ord.quantity = calculateScaledQuantity mt.quantity cfg acct ∧ 0 < ord.quantity) := by
  constructor
  · intro m
    cases cfg
    rfl
  · intro ord h
    unfold copyTradeToSlave at h
    split at h
    · simp at h
    · split at h
      · simp at h
      · rename_i hq
        split at h
        · simp only [Option.some.injEq] at h
          subst h
          exact ⟨rfl, by simp only [buildSlaveOrder]; omega⟩
        · simp only [Option.some.injEq] at h
          subst h
          exact ⟨rfl, by simp only [buildSlaveOrder]; omega⟩

/-- Closed witness for `C2_amended` at concrete inputs. -/
theorem C2_amended_witness :
  copyTradeToSlave okPlace [] "cop-1" mt1 { baseCfg with maxContracts := some 7 } slaveAcct 0 1 "st-1"
    = copyTradeToSlave okPlace [] "cop-1" mt1 baseCfg slaveAcct 0 1 "st-1" :=
  (C2_amended okPlace [] "cop-1" mt1 baseCfg slaveAcct 0 1 "st-1").1 (some 7)

/-- C3: the claim is false on the code.  With `scalingType = PERCENTAGE` and
`percentageScale = 0` the code computes q' = Q (the JavaScript `|| 1.0`
fallback treats 0 as unset) instead of the claimed q' = 0, and the follower is
not skipped: an order of the full master quantity is placed.  Likewise
`FIXED` with `fixedContracts = 0` yields Q, not 0. -/
theorem C3_counterexample :
  calculateScaledQuantity 3 { baseCfg with scalingType := RiskScalingType.PERCENTAGE, percentageScale := some 0 } slaveAcct = 3
  ∧ scaledQuantityClaim 3 { baseCfg with scalingType := RiskScalingType.PERCENTAGE, percentageScale := some 0 } slaveAcct = 0
  ∧ (copyTradeToSlave okPlace [] "cop-1" mt1 { baseCfg with scalingType := RiskScalingType.PERCENTAGE, percentageScale := some 0 } slaveAcct 0 1 "st-3").placedOrder = some (buildSlaveOrder mt1 3)
  ∧ calculateScaledQuantity 3 { baseCfg with fixedContracts := some 0 } slaveAcct = 3
  ∧ scaledQuantityClaim 3 { baseCfg with fixedContracts := some 0 } slaveAcct = 0 := by
  have hone : jsRatOr (some 0) 1 = 1 := by decide
  have hfl : Rat.floor ((3 : Int) : Rat) = 3 := by
    rw [rat_floor_eq_intFloor]
    exact Int.floor_intCast 3
  have hscaled : calculateScaledQuantity 3 { baseCfg with scalingType := RiskScalingType.PERCENTAGE, percentageScale := some 0 } slaveAcct = 3 := by
    simp only [calculateScaledQuantity, baseCfg, hone, mul_one]
    exact hfl
  refine ⟨hscaled, ?_, ?_, by decide, by decide⟩
  · simp only [scaledQuantityClaim, baseCfg, Option.getD_some, mul_zero]
    rw [rat_floor_eq_intFloor]
    exact Int.floor_zero
  · have hq := hscaled
    simp only [baseCfg] at hq
    simp [copyTradeToSlave, checkRiskRules, jsNumTruthy, baseCfg, mt1, hq, okPlace,
      buildSlaveOrder]

/-- C3 (amended): `FIXED` yields `fixedContracts` when it is set and nonzero
and falls back to Q when it is null OR 0; `PERCENTAGE` yields
`⌊Q · percentageScale⌋` when `percentageScale` is set and nonzero and falls
back to scale 1 (hence q' = Q) when it is null OR 0; `BALANCE_BASED` yields
`⌊Q · currentBalance / 50000⌋`. -/
theorem C3_amended (Q : Int) (cfg : SlaveConfig) (a : SlaveAccount) :
  (cfg.scalingType = RiskScalingType.FIXED → ∀ v, cfg.fixedContracts = some v → v ≠ 0 →
      calculateScaledQuantity Q cfg a = v)
  ∧ (cfg.scalingType = RiskScalingType.FIXED →
      (cfg.fixedContracts = none ∨ cfg.fixedContracts = some 0) →
      calculateScaledQuantity Q cfg a = Q)
  ∧ (cfg.scalingType = RiskScalingType.PERCENTAGE → ∀ p, cfg.percentageScale = some p → p ≠ 0 →
      calculateScaledQuantity Q cfg a = Rat.floor ((Q : Rat) * p))
  ∧ (cfg.scalingType = RiskScalingType.PERCENTAGE →
      (cfg.percentageScale = none ∨ cfg.percentageScale = some 0) →
      calculateScaledQuantity Q cfg a = Q)
  ∧ (cfg.scalingType = RiskScalingType.BALANCE_BASED →
      calculateScaledQuantity Q cfg a = Rat.floor ((Q : Rat) * (a.currentBalance / 50000))) := by
  have hfl : Rat.floor ((Q : Rat)) = Q := by
    rw [rat_floor_eq_intFloor]
    exact Int.floor_intCast Q
  refine ⟨?_, ?_, ?_, ?_, ?_⟩
  · intro hs v hv hnz
    simp [calculateScaledQuantity, hs, hv, jsIntOr, hnz]
  · intro hs hv
    rcases hv with hv | hv <;> simp [calculateScaledQuantity, hs, hv, jsIntOr]
  · intro hs p hp hnz
    simp [calculateScaledQuantity, hs, hp, jsRatOr, hnz]
  · intro hs hp
    rcases hp with hp | hp <;> simp [calculateScaledQuantity, hs, hp, jsRatOr, mul_one, hfl]
  · intro hs
    simp [calculateScaledQuantity, hs]

/-- Closed witness for `C3_amended`: balance-based scaling at balance 25000
and master quantity 4. -/
theorem C3_amended_witness :
  calculateScaledQuantity 4 { baseCfg with scalingType := RiskScalingType.BALANCE_BASED } { slaveAcct with currentBalance := 25000 } = Rat.floor ((4 : Rat) * (25000 / 50000)) :=
  (C3_amended 4 { baseCfg with scalingType := RiskScalingType.BALANCE_BASED } { slaveAcct with currentBalance := 25000 }).2.2.2.2 rfl

/-- The daily P&L query on the sample state: one FILLED trade of the same
copier on follower account `S` with realised P&L −150. -/
theorem dailyLossOf_sample : dailyLossOf [tSameCopier] "cop-1" "S" 0 = -150 := by
  simp [dailyLossOf, isTodayFilledSlaveTrade, tSameCopier, tOtherCopier, mt1]

/-- `100 ≤ |−150|` over the rationals. -/
theorem abs_sample_ge : (100 : Rat) ≤ |(-150 : Rat)| := by
  rw [show ((-150 : Rat)) = -(150 : Rat) by norm_num, abs_neg,
    abs_of_nonneg (by norm_num : (0 : Rat) ≤ 150)]
  norm_num

/-- The rejection message at daily loss −150. -/
theorem riskReason_sample : riskReason (-150) = "Daily loss limit exceeded: -150" := by
  decide

/-- Evaluating the risk gate on the sample state: limit 100, same-copier loss
−150 today; the gate rejects and, `autoDisable` being set, issues the config
disable update. -/
theorem checkRiskRules_sample :
  checkRiskRules [tSameCopier] "cop-1" { baseCfg with dailyLossLimit := some 100 } 0
    = (⟨false, some (riskReason (-150))⟩, some ⟨"cfg-1", false, riskReason (-150)⟩) := by
  simp [checkRiskRules, baseCfg, jsNumTruthy, dailyLossOf_sample, abs_sample_ge]
  norm_num

/-- C6: the claim is false on the code.  When the risk gate rejects, the
engine only calls the application logger (`this.logger.warn`) and skips: NO
ExecutionLog row of any level is written (`newLogs = []`), and indeed nothing
is persisted except the autoDisable config update. -/
theorem C6_counterexample :
  (checkRiskRules [tSameCopier] "cop-1" { baseCfg with dailyLossLimit := some 100 } 0).1.allowed = false
  ∧ (copyTradeToSlave okPlace [tSameCopier] "cop-1" mt1 { baseCfg with dailyLossLimit := some 100 } slaveAcct 0 1 "st-6").newLogs = []
  ∧ (copyTradeToSlave okPlace [tSameCopier] "cop-1" mt1 { baseCfg with dailyLossLimit := some 100 } slaveAcct 0 1 "st-6").newMappings = []
  ∧ (copyTradeToSlave okPlace [tSameCopier] "cop-1" mt1 { baseCfg with dailyLossLimit := some 100 } slaveAcct 0 1 "st-6").newTrades = []
  ∧ (copyTradeToSlave okPlace [tSameCopier] "cop-1" mt1 { baseCfg with dailyLossLimit := some 100 } slaveAcct 0 1 "st-6").loggerWarns
      = ["Risk rule violated for slave S: Daily loss limit exceeded: -150"] := by
  have h := checkRiskRules_sample
  simp only [baseCfg] at h
  refine ⟨by rw [checkRiskRules_sample], ?_, ?_, ?_, ?_⟩ <;>
    simp [copyTradeToSlave, baseCfg, h, riskReason_sample]

/-- C6 (amended): a risk-gate rejection makes the engine log an
application-logger warning with the reason and skip the follower entirely: no
ExecutionLog row, no follower trade, no mapping, no order — only the gate's
own autoDisable update is persisted — so the rejection never surfaces to the
master path as an error. -/
theorem C6_amended (place : String → TradeOrder → Except String TradeExecution)
    (trades : List Trade) (cid : String) (mt : Trade) (cfg : SlaveConfig)
    (acct : SlaveAccount) (ds now : Int) (sid : String)
    (h : (checkRiskRules trades cid cfg ds).1.allowed = false) :
  copyTradeToSlave place trades cid mt cfg acct ds now sid =
    { loggerWarns := ["Risk rule violated for slave " ++ cfg.slaveAccountId ++ ": "
        ++ (checkRiskRules trades cid cfg ds).1.reason.getD ""]
      placedOrder := none
      newTrades := []
      newMappings := []
      newLogs := []
      configDisable := (checkRiskRules trades cid cfg ds).2 } := by
  simp [copyTradeToSlave, h]

/-- Closed witness for `C6_amended` on the sample rejecting state. -/
theorem C6_amended_witness :
  copyTradeToSlave okPlace [tSameCopier] "cop-1" mt1 { baseCfg with dailyLossLimit := some 100 } slaveAcct 0 1 "st-6" =
    { loggerWarns := ["Risk rule violated for slave "
        ++ ({ baseCfg with dailyLossLimit := some 100 } : SlaveConfig).slaveAccountId ++ ": "
        ++ (checkRiskRules [tSameCopier] "cop-1" { baseCfg with dailyLossLimit := some 100 } 0).1.reason.getD ""]
      placedOrder := none
      newTrades := []
      newMappings := []
      newLogs := []
      configDisable := (checkRiskRules [tSameCopier] "cop-1" { baseCfg with dailyLossLimit := some 100 } 0).2 } :=
  C6_amended okPlace [tSameCopier] "cop-1" mt1 { baseCfg with dailyLossLimit := some 100 } slaveAcct 0 1 "st-6"
    (by rw [checkRiskRules_sample])

/-- C4: the claim is false on the code in two ways.  (a) The code's daily sum
is additionally filtered by the copier id: a FILLED losing trade on the
follower account booked by ANOTHER copier is invisible to the gate, so the
gate allows where the claim demands rejection.  (b) `dailyLossLimit = 0` is
"set" but JavaScript-falsy, so the gate is skipped entirely, while the claim
(|0| ≥ 0) demands rejection. -/
theorem C4_counterexample :
  (checkRiskRules [tOtherCopier] "cop-1" { baseCfg with dailyLossLimit := some 100 } 0).1.allowed = true
  ∧ riskRejectsClaim [tOtherCopier] { baseCfg with dailyLossLimit := some 100 } 0 = true
  ∧ (checkRiskRules [] "cop-1" { baseCfg with dailyLossLimit := some 0 } 0).1.allowed = true
  ∧ riskRejectsClaim [] { baseCfg with dailyLossLimit := some 0 } 0 = true := by
  refine ⟨?_, ?_, ?_, ?_⟩
  · have hd : dailyLossOf [tOtherCopier] "cop-1" "S" 0 = 0 := by
      simp [dailyLossOf, isTodayFilledSlaveTrade, tOtherCopier, mt1]
    simp [checkRiskRules, baseCfg, jsNumTruthy, hd]
    rw [if_neg (by norm_num)]
  · simp [riskRejectsClaim, baseCfg, tOtherCopier, mt1, abs_sample_ge]
    norm_num
  · simp [checkRiskRules, baseCfg, jsNumTruthy]
  · simp [riskRejectsClaim, baseCfg, abs_zero]

/-- C4 (amended): the gate is armed only when `dailyLossLimit` is set AND
nonzero; it then sums realised P&L over FILLED trades of the SAME copier on
the follower account since the start of the (server-local) day, rejects
exactly when `|sum| ≥ limit` (equality rejects), and issues the
`isActive := false` / `disabledReason` update exactly when it rejects with
`autoDisable` set.  A null or zero limit disables the gate. -/
theorem C4_amended (trades : List Trade) (cid : String) (cfg : SlaveConfig) (ds : Int) :
  (∀ L, cfg.dailyLossLimit = some L → L ≠ 0 →
    ((checkRiskRules trades cid cfg ds).1.allowed = false ↔
        |dailyLossOf trades cid cfg.slaveAccountId ds| ≥ L)
    ∧ (checkRiskRules trades cid cfg ds).2 =
        (if |dailyLossOf trades cid cfg.slaveAccountId ds| ≥ L ∧ cfg.autoDisable = true then
          some ⟨cfg.id, false, riskReason (dailyLossOf trades cid cfg.slaveAccountId ds)⟩
        else none))
  ∧ ((cfg.dailyLossLimit = none ∨ cfg.dailyLossLimit = some 0) →
      (checkRiskRules trades cid cfg ds).1.allowed = true
      ∧ (checkRiskRules trades cid cfg ds).2 = none) := by
  constructor
  · intro L hL hnz
    by_cases hge : |dailyLossOf trades cid cfg.slaveAccountId ds| ≥ L
    · by_cases had : cfg.autoDisable = true <;>
        simp [checkRiskRules, jsNumTruthy, hL, hnz, hge, had]
    · simp [checkRiskRules, jsNumTruthy, hL, hnz, hge]
  · intro h
    rcases h with h | h <;> simp [checkRiskRules, jsNumTruthy, h]

/-- Closed witness for `C4_amended`: a daily sum EXACTLY equal to the limit
(−150 against limit 150) rejects. -/
theorem C4_amended_witness :
  ({ baseCfg with dailyLossLimit := some 150 } : SlaveConfig).dailyLossLimit = some 150
  ∧ ((checkRiskRules [tSameCopier] "cop-1" { baseCfg with dailyLossLimit := some 150 } 0).1.allowed = false ↔
      |dailyLossOf [tSameCopier] "cop-1"
        ({ baseCfg with dailyLossLimit := some 150 } : SlaveConfig).slaveAccountId 0| ≥ 150) :=
  ⟨rfl, ((C4_amended [tSameCopier] "cop-1" { baseCfg with dailyLossLimit := some 150 } 0).1 150 rfl
    (by norm_num)).1⟩

/-- C7: the claim is false on the code.  When the adapter's `connect` throws,
`AccountsService.connect` catches the error, persists `isConnected = false`
and the message on the row, and RETURNS the updated account to its caller as
a normal (non-error) result: the error is not surfaced. -/
theorem C7_counterexample :
  accountsServiceConnect (fun _ => Except.error "Invalid credentials") acctA 5
    = Except.ok { acctA with isConnected := false, errorMessage := some "Invalid credentials" }
  ∧ (accountsServiceConnect (fun _ => Except.error "Invalid credentials") acctA 5).isOk = true := by
  exact ⟨rfl, rfl⟩

/-- C7 (amended): on adapter connect failure the service persists
`errorMessage` and `isConnected = false` on the account and returns the
updated row to the caller WITHOUT raising; the failure is observable only
through the returned record.  The method consumes exactly the first adapter
call, so a failure is never retried from within the request path. -/
theorem C7_amended (adapterConnect : Nat → Except String Unit)
    (account : TradingAccount) (now : Int) (e : String)
    (h : adapterConnect 0 = Except.error e) :
  accountsServiceConnect adapterConnect account now
    = Except.ok { account with isConnected := false, errorMessage := some e }
  ∧ ∀ g : Nat → Except String Unit, g 0 = adapterConnect 0 →
      accountsServiceConnect g account now = accountsServiceConnect adapterConnect account now := by
  constructor
  · unfold accountsServiceConnect
    rw [h]
  · intro g hg
    unfold accountsServiceConnect
    rw [hg]

/-- Closed witness for `C7_amended` at a concrete failing adapter. -/
theorem C7_amended_witness :
  accountsServiceConnect (fun _ => Except.error "bad key") acctA 7
    = Except.ok { acctA with isConnected := false, errorMessage := some "bad key" } :=
  (C7_amended (fun _ => Except.error "bad key") acctA 7 "bad key" rfl).1

/-- C10 (confirmed): on a successful `placeOrder` through `BaseHttpAdapter`,
every callback registered via `onTradeUpdate` is invoked with the resulting
execution, in registration order, and the same execution is returned to the
caller; in particular an order the engine places on a follower through a
shared adapter is re-emitted on that adapter's trade-update stream. -/
theorem C10_placeOrder_notifies (st : AdapterState)
    (f : TradeOrder → Except String TradeExecution) (order : TradeOrder)
    (execution : TradeExecution)
    (hconn : st.connected = true) (hexec : f order = Except.ok execution) :
  (basePlaceOrder st f order).result = Except.ok execution
  ∧ (basePlaceOrder st f order).notified = st.tradeCallbacks.map (fun cb => (cb, execution))
  ∧ ∀ st0 cb, st = onTradeUpdate st0 cb → (cb, execution) ∈ (basePlaceOrder st f order).notified := by
  refine ⟨?_, ?_, ?_⟩
  · simp [basePlaceOrder, hconn, hexec]
  · simp [basePlaceOrder, hconn, hexec]
  · intro st0 cb hst
    subst hst
    simp only [basePlaceOrder, onTradeUpdate] at *
    simp only [hconn, Bool.not_true, Bool.false_eq_true, if_false, hexec]
    simp only [List.map_append, List.map_cons, List.map_nil]
    exact List.mem_append_right _ (List.mem_singleton.mpr rfl)

/-- Closed witness for `C10_placeOrder_notifies`: one registered callback,
a successful execution. -/
theorem C10_placeOrder_notifies_witness :
  (basePlaceOrder (onTradeUpdate ⟨true, []⟩ 7)
      (fun _ => Except.ok ⟨"o-1", "x-1", "ES", TradeSide.BUY, 2, 5000, "filled", some 1⟩)
      (buildSlaveOrder mt1 2)).result
    = Except.ok ⟨"o-1", "x-1", "ES", TradeSide.BUY, 2, 5000, "filled", some 1⟩ :=
  (C10_placeOrder_notifies (onTradeUpdate ⟨true, []⟩ 7)
    (fun _ => Except.ok ⟨"o-1", "x-1", "ES", TradeSide.BUY, 2, 5000, "filled", some 1⟩)
    (buildSlaveOrder mt1 2) ⟨"o-1", "x-1", "ES", TradeSide.BUY, 2, 5000, "filled", some 1⟩
    rfl rfl).1

/-- Sample `Trade` row on account `A` for the referential-action claims. -/
def relTrade : Trade :=
  { mt1 with
    id := "rt-1"
    accountId := "A" }

/-- Sample relational state: one copier, one account, one trade on it, one
mapping, one log row. -/
def relDB : RelationalDB :=
  { copiers := [⟨"cop-1", "M"⟩]
    accounts := [acctA]
    configs := []
    trades := [relTrade]
    mappings := [⟨"cop-1", "mt-1", "st-1", "S", "synced", none, some 1⟩]
    execLogs := [⟨"cop-1", LogLevel.info, "started", none, none, none⟩] }

/-- C8: the second half of the claim is false on the schema.  `Trade.accountId`
carries `ON DELETE RESTRICT`, not `ON DELETE CASCADE`: deleting a
TradingAccount that Trade rows reference is REFUSED by the database, the
trades are not deleted with it. -/
theorem C8_counterexample :
  relTrade ∈ relDB.trades
  ∧ relTrade.accountId = "A"
  ∧ deleteTradingAccount relDB "A" = Except.error "restricted by Trade_accountId_fkey" := by
  exact ⟨by decide, rfl, rfl⟩

/-- C8 (amended): deleting a Copier keeps every Trade row (count preserved)
with its copier reference nulled out, and removes every ExecutionLog and
TradeMapping row of that copier (cascade); deleting a TradingAccount that any
Trade row references is refused (`ON DELETE RESTRICT`) rather than cascading
to the trades. -/
theorem C8_amended (db : RelationalDB) (cid aid : String) :
  (deleteCopier db cid).trades.length = db.trades.length
  ∧ (∀ t ∈ (deleteCopier db cid).trades, t.copierId ≠ some cid)
  ∧ (∀ m ∈ (deleteCopier db cid).mappings, m.copierId ≠ cid)
  ∧ (∀ l ∈ (deleteCopier db cid).execLogs, l.copierId ≠ cid)
  ∧ ((∃ t ∈ db.trades, t.accountId = aid) →
      ∀ db2, deleteTradingAccount db aid ≠ Except.ok db2) := by
  refine ⟨?_, ?_, ?_, ?_, ?_⟩
  · simp [deleteCopier]
  · intro t ht
    simp only [deleteCopier, List.mem_map] at ht
    obtain ⟨t0, _, rfl⟩ := ht
    split
    · simp
    · rename_i hne
      exact hne
  · intro m hm
    simp only [deleteCopier, List.mem_filter, bne_iff_ne, ne_eq] at hm
    exact hm.2
  · intro l hl
    simp only [deleteCopier, List.mem_filter, bne_iff_ne, ne_eq] at hl
    exact hl.2
  · rintro ⟨t, ht, hacc⟩ db2
    have hany : db.trades.any (fun t => t.accountId == aid) = true :=
      List.any_eq_true.mpr ⟨t, ht, by simp [hacc]⟩
    simp [deleteTradingAccount, hany]

/-- Closed witness for `C8_amended` on the sample state. -/
theorem C8_amended_witness :
  (deleteCopier relDB "cop-1").trades.length = relDB.trades.length
  ∧ ∀ db2, deleteTradingAccount relDB "A" ≠ Except.ok db2 :=
  ⟨(C8_amended relDB "cop-1" "A").1,
    (C8_amended relDB "cop-1" "A").2.2.2.2 ⟨relTrade, by decide, rfl⟩⟩

/-- Auth-probe responder granting 200 only to email+password at
`/oauth/token`, 401 everywhere else. -/
def respond9 : String → CredShape → Nat := fun ep sh =>
  if ep = "/oauth/token" ∧ sh = CredShape.emailPassword then 200 else 401

/-- Auth-probe responder granting 200 to email+password at `/api/auth/login`
and to apiKey+apiSecret at `/auth/login`, 401 everywhere else. -/
def respond9b : String → CredShape → Nat := fun ep sh =>
  if ep = "/api/auth/login" ∧ sh = CredShape.emailPassword then 200
  else if ep = "/auth/login" ∧ sh = CredShape.apiKeySecret then 200
  else 401

/-- Connection config with every credential shape available. -/
def cfg9 : RithmicConfig :=
  { email := some "user@x.com"
    password := some "pw"
    apiKey := some "key"
    apiSecret := some "sec"
    accountNumber := "acc-1" }

/-- C9: the claim is false on the code in two ways.  (a) The code's endpoint
list has only seven entries — `/oauth/token` is absent — so a server that
authenticates only at `/oauth/token` makes the code's probe fail although the
claim predicts success there.  (b) The loop nesting is inverted: the code
iterates credential SHAPES outermost and endpoints innermost, so with
email+password succeeding at `/api/auth/login` and apiKey+apiSecret
succeeding at `/auth/login` the code picks `(emailPassword, /api/auth/login)`
while the claim's endpoint-outer order picks `(/auth/login, apiKeySecret)`. -/
theorem C9_counterexample :
  rithmicAuthenticate respond9 cfg9 = none
  ∧ authenticateClaimOrder respond9 cfg9 = some ("/oauth/token", CredShape.emailPassword)
  ∧ rithmicAuthenticate respond9b cfg9 = some (CredShape.emailPassword, "/api/auth/login")
  ∧ authenticateClaimOrder respond9b cfg9 = some ("/auth/login", CredShape.apiKeySecret) := by
  decide

/-- Soundness of one credential-shape scan: a hit names that shape, one of
the seven source endpoints, and a 200/201 response. -/
theorem tryShape_eq_some (respond : String → CredShape → Nat) (sh sh' : CredShape)
    (ep : String) (h : tryShape respond sh = some (sh', ep)) :
    sh' = sh ∧ ep ∈ authEndpoints ∧ isAuthSuccess (respond ep sh) = true := by
  unfold tryShape at h
  cases hf : authEndpoints.find? (fun e => isAuthSuccess (respond e sh)) with
  | none =>
      rw [hf] at h
      simp at h
  | some e =>
      rw [hf] at h
      simp only [Option.map_some', Option.some.injEq, Prod.mk.injEq] at h
      obtain ⟨h1, h2⟩ := h
      subst h1
      subst h2
      exact ⟨rfl, List.mem_of_find?_eq_some hf, by simpa using List.find?_some hf⟩

/-- Completeness of one credential-shape scan: no hit means every endpoint
answered something other than 200/201. -/
theorem tryShape_eq_none (respond : String → CredShape → Nat) (sh : CredShape) :
    tryShape respond sh = none ↔
      ∀ ep ∈ authEndpoints, isAuthSuccess (respond ep sh) = false := by
  unfold tryShape
  simp [List.find?_eq_none]

/-- C9 (amended): the adapter iterates credential shapes outermost — in the
order email+password, apiKey+apiSecret, username(=accountNumber)+password,
each only when its credentials are present and non-empty — and for each shape
scans the SEVEN endpoints `/auth/login`, `/api/auth/login`, `/v1/auth/login`,
`/login`, `/api/login`, `/authenticate`, `/api/authenticate` in order
(`/oauth/token` is not probed); only a 200/201 response wins, any other
response or thrown error moves to the next endpoint; if every enabled
(shape, endpoint) combination fails, `connect` fails with an authentication
error. -/
theorem C9_amended (respond : String → CredShape → Nat) (cfg : RithmicConfig) :
  "/oauth/token" ∉ authEndpoints
  ∧ (∀ sh ep, rithmicAuthenticate respond cfg = some (sh, ep) →
      shapeEnabled cfg sh = true ∧ ep ∈ authEndpoints ∧ isAuthSuccess (respond ep sh) = true)
  ∧ ((∀ sh ep, shapeEnabled cfg sh = true → ep ∈ authEndpoints →
        isAuthSuccess (respond ep sh) = false) →
      rithmicAuthenticate respond cfg = none)
  ∧ (shapeEnabled cfg CredShape.emailPassword = true →
      ∀ ep ∈ authEndpoints, isAuthSuccess (respond ep CredShape.emailPassword) = true →
        ∃ ep2, rithmicAuthenticate respond cfg = some (CredShape.emailPassword, ep2)) := by
  refine ⟨by decide, ?_, ?_, ?_⟩
  · intro sh ep h
    unfold rithmicAuthenticate at h
    split at h
    · rename_i r1 heq
      rw [h] at heq
      split at heq
      · rename_i henb
        obtain ⟨rfl, hmem, hok⟩ := tryShape_eq_some respond _ sh ep heq
        exact ⟨henb, hmem, hok⟩
      · simp at heq
    · split at h
      · rename_i r2 heq
        rw [h] at heq
        split at heq
        · rename_i henb
          obtain ⟨rfl, hmem, hok⟩ := tryShape_eq_some respond _ sh ep heq
          exact ⟨henb, hmem, hok⟩
        · simp at heq
      · split at h
        · rename_i henb
          obtain ⟨rfl, hmem, hok⟩ := tryShape_eq_some respond _ sh ep h
          exact ⟨henb, hmem, hok⟩
        · simp at h
  · intro hall
    have ht : ∀ sh, (if shapeEnabled cfg sh then tryShape respond sh else none) = none := by
      intro sh
      split
      · rename_i hsh
        exact (tryShape_eq_none respond sh).mpr (fun ep hep => hall sh ep hsh hep)
      · rfl
    simp only [rithmicAuthenticate, ht]
  · intro he ep hep hok
    have hsome : (authEndpoints.find? (fun e => isAuthSuccess (respond e CredShape.emailPassword))).isSome :=
      List.find?_isSome.mpr ⟨ep, hep, hok⟩
    obtain ⟨e0, he0⟩ := Option.isSome_iff_exists.mp hsome
    refine ⟨e0, ?_⟩
    have htr : tryShape respond CredShape.emailPassword = some (CredShape.emailPassword, e0) := by
      unfold tryShape
      rw [he0]
      rfl
    simp only [rithmicAuthenticate, he, if_true, htr]

/-- Closed witness for `C9_amended`: email+password enabled and succeeding at
`/api/auth/login` forces an email+password result. -/
theorem C9_amended_witness :
  ∃ ep2, rithmicAuthenticate respond9b cfg9 = some (CredShape.emailPassword, ep2) :=
  (C9_amended respond9b cfg9).2.2.2 (by decide) "/api/auth/login" (by decide) (by decide)

/-- Every `Trade` row created by one follower copy lands on that follower's
account. -/
theorem copyTradeToSlave_newTrades_account
    (place : String → TradeOrder → Except String TradeExecution)
    (trades : List Trade) (cid : String) (mt : Trade) (cfg : SlaveConfig)
    (acct : SlaveAccount) (ds now : Int) (sid : String) :
    ∀ t ∈ (copyTradeToSlave place trades cid mt cfg acct ds now sid).newTrades,
      t.accountId = cfg.slaveAccountId := by
  intro t ht
  unfold copyTradeToSlave at ht
  split at ht
  · simp at ht
  · split at ht
    · simp at ht
    · split at ht
      · simp only [List.mem_singleton] at ht
        subst ht
        rfl
      · simp at ht

/-- Every `TradeMapping` row created by one follower copy names that
follower's account. -/
theorem copyTradeToSlave_newMappings_account
    (place : String → TradeOrder → Except String TradeExecution)
    (trades : List Trade) (cid : String) (mt : Trade) (cfg : SlaveConfig)
    (acct : SlaveAccount) (ds now : Int) (sid : String) :
    ∀ m ∈ (copyTradeToSlave place trades cid mt cfg acct ds now sid).newMappings,
      m.slaveAccountId = cfg.slaveAccountId := by
  intro m hm
  unfold copyTradeToSlave at hm
  split at hm
  · simp at hm
  · split at hm
    · simp at hm
    · split at hm
      · simp only [List.mem_singleton] at hm
        subst hm
        rfl
      · simp only [List.mem_singleton] at hm
        subst hm
        rfl

/-- A follower copy that passes the risk gate and has a positive scaled
quantity writes exactly one `TradeMapping` — on success AND on failure of the
adapter call. -/
theorem copyTradeToSlave_newMappings_length
    (place : String → TradeOrder → Except String TradeExecution)
    (trades : List Trade) (cid : String) (mt : Trade) (cfg : SlaveConfig)
    (acct : SlaveAccount) (ds now : Int) (sid : String)
    (hrisk : (checkRiskRules trades cid cfg ds).1.allowed = true)
    (hq : 0 < calculateScaledQuantity mt.quantity cfg acct) :
    (copyTradeToSlave place trades cid mt cfg acct ds now sid).newMappings.length = 1 := by
  unfold copyTradeToSlave
  rw [hrisk]
  rw [if_neg (by simp)]
  rw [if_neg (by omega)]
  split <;> rfl

/-- C5 (confirmed): a follower whose `placeOrder` fails gets a `TradeMapping`
with status `failed`, empty `slaveTradeId` and the error message plus an
ExecutionLog `error` entry and NO follower trade; the fan-out still produces
one outcome per active follower, and every follower's outcome is determined
by its own config and account alone, so one follower's failure never prevents
the others from being processed. -/
theorem C5_failed_follower
    (place : String → TradeOrder → Except String TradeExecution)
    (trades : List Trade) (copier : Copier) (masterTrade : Trade) (ds now : Int)
    (i : Nat) (cs : CopierSlave) (e : String)
    (hi : (activeSlaveConfigs copier)[i]? = some cs)
    (hrisk : (checkRiskRules trades copier.id cs.config ds).1.allowed = true)
    (hq : 0 < calculateScaledQuantity masterTrade.quantity cs.config cs.account)
    (hfail : place cs.config.slaveAccountId
        (buildSlaveOrder masterTrade
          (calculateScaledQuantity masterTrade.quantity cs.config cs.account))
        = Except.error e) :
  (fanOut place trades copier masterTrade ds now).length = (activeSlaveConfigs copier).length
  ∧ (fanOut place trades copier masterTrade ds now)[i]? = some
      { loggerWarns := []
        placedOrder := some (buildSlaveOrder masterTrade
          (calculateScaledQuantity masterTrade.quantity cs.config cs.account))
        newTrades := []
        newMappings := [⟨copier.id, masterTrade.id, "", cs.config.slaveAccountId,
          "failed", some e, none⟩]
        newLogs := [⟨copier.id, LogLevel.error, "Failed to copy trade to slave: " ++ e,
          some masterTrade.id, none, some cs.config.slaveAccountId⟩]
        configDisable := none }
  ∧ ∀ (j : Nat) (cs2 : CopierSlave), (activeSlaveConfigs copier)[j]? = some cs2 →
      (fanOut place trades copier masterTrade ds now)[j]? = some
        (copyTradeToSlave place trades copier.id masterTrade cs2.config cs2.account ds now
          (masterTrade.id ++ "-" ++ cs2.config.slaveAccountId)) := by
  have hmap : ∀ (j : Nat) (cs2 : CopierSlave), (activeSlaveConfigs copier)[j]? = some cs2 →
      (fanOut place trades copier masterTrade ds now)[j]? = some
        (copyTradeToSlave place trades copier.id masterTrade cs2.config cs2.account ds now
          (masterTrade.id ++ "-" ++ cs2.config.slaveAccountId)) := by
    intro j cs2 hj
    simp [fanOut, List.getElem?_map, hj]
  refine ⟨by simp [fanOut], ?_, hmap⟩
  rw [hmap i cs hi]
  have hcopy : copyTradeToSlave place trades copier.id masterTrade cs.config cs.account ds now
      (masterTrade.id ++ "-" ++ cs.config.slaveAccountId) =
      { loggerWarns := []
        placedOrder := some (buildSlaveOrder masterTrade
          (calculateScaledQuantity masterTrade.quantity cs.config cs.account))
        newTrades := []
        newMappings := [⟨copier.id, masterTrade.id, "", cs.config.slaveAccountId,
          "failed", some e, none⟩]
        newLogs := [⟨copier.id, LogLevel.error, "Failed to copy trade to slave: " ++ e,
          some masterTrade.id, none, some cs.config.slaveAccountId⟩]
        configDisable := none } := by
    unfold copyTradeToSlave
    rw [hrisk]
    rw [if_neg (by simp)]
    rw [if_neg (by omega)]
    rw [hfail]
  rw [hcopy]

/-- A follower adapter oracle whose `placeOrder` always throws. -/
def failPlace : String → TradeOrder → Except String TradeExecution :=
  fun _ _ => Except.error "Connection lost"

/-- Closed witness for `C5_failed_follower`: the single active follower of the
sample copier fails with a transport error. -/
theorem C5_failed_follower_witness :
  (fanOut failPlace [] copier1 mt1 0 1).length = (activeSlaveConfigs copier1).length
  ∧ (fanOut failPlace [] copier1 mt1 0 1)[0]? = some
      { loggerWarns := []
        placedOrder := some (buildSlaveOrder mt1
          (calculateScaledQuantity mt1.quantity baseCfg slaveAcct))
        newTrades := []
        newMappings := [⟨copier1.id, mt1.id, "", baseCfg.slaveAccountId,
          "failed", some "Connection lost", none⟩]
        newLogs := [⟨copier1.id, LogLevel.error, "Failed to copy trade to slave: Connection lost",
          some mt1.id, none, some baseCfg.slaveAccountId⟩]
        configDisable := none } :=
  ⟨(C5_failed_follower failPlace [] copier1 mt1 0 1 0 ⟨baseCfg, slaveAcct⟩ "Connection lost"
      (by decide) (by decide) (by decide) rfl).1,
    (C5_failed_follower failPlace [] copier1 mt1 0 1 0 ⟨baseCfg, slaveAcct⟩ "Connection lost"
      (by decide) (by decide) (by decide) rfl).2.1⟩

/-- Folding the fan-out writes into the database concatenates the created
`Trade` rows. -/
theorem foldl_applyOutcome_trades (os : List CopyOutcome) (db : EngineDB) :
    (os.foldl applyOutcome db).trades
      = db.trades ++ (os.map CopyOutcome.newTrades).flatten := by
  induction os generalizing db with
  | nil => simp
  | cons o os ih => simp [applyOutcome, ih, List.append_assoc]

/-- Folding the fan-out writes into the database concatenates the created
`TradeMapping` rows. -/
theorem foldl_applyOutcome_mappings (os : List CopyOutcome) (db : EngineDB) :
    (os.foldl applyOutcome db).mappings
      = db.mappings ++ (os.map CopyOutcome.newMappings).flatten := by
  induction os generalizing db with
  | nil => simp
  | cons o os ih => simp [applyOutcome, ih, List.append_assoc]

/-- Summing a per-element count over a list whose keys are pairwise distinct:
only the distinguished element contributes. -/
theorem sum_map_eq_single {α : Type} (l : List α) (g : α → Nat) (key : α → String)
    (cs : α) (hmem : cs ∈ l) (hnodup : (l.map key).Nodup)
    (hother : ∀ x ∈ l, key x ≠ key cs → g x = 0) :
    (l.map g).sum = g cs := by
  induction l with
  | nil => simp at hmem
  | cons a l ih =>
    simp only [List.map_cons, List.nodup_cons] at hnodup
    obtain ⟨hna, hnd⟩ := hnodup
    rcases List.mem_cons.mp hmem with rfl | hmem2
    · have hz : (l.map g).sum = 0 := by
        apply List.sum_eq_zero
        intro x hx
        obtain ⟨y, hy, rfl⟩ := List.mem_map.mp hx
        apply hother y (List.mem_cons_of_mem _ hy)
        intro hk
        exact hna (hk ▸ List.mem_map_of_mem key hy)
      simp [hz]
    · have ha0 : g a = 0 :=
        hother a (List.mem_cons_self a l)
          (fun hk => hna (hk ▸ List.mem_map_of_mem key hmem2))
      simp only [List.map_cons, List.sum_cons, ha0, Nat.zero_add]
      exact ih hmem2 hnd (fun x hx hk => hother x (List.mem_cons_of_mem _ hx) hk)

/-- C1: the claim is false on the code.  Delivering the same execution
(external trade id `ext-1`) twice to the ACTIVE sample copier persists TWO
master `Trade` rows and TWO `TradeMapping` rows for the single follower —
not one of each: the schema has no uniqueness on `externalTradeId`, so the
second insert is not a conflict, and the mapping unique key is on the
internal master trade id, which differs between the deliveries. -/
theorem C1_counterexample :
  countMasterTrades c1db2 "M" "ext-1" = 2
  ∧ countMappingsFor c1db2 "S" = 2
  ∧ ¬(countMasterTrades c1db2 "M" "ext-1" = 1 ∧ countMappingsFor c1db2 "S" = 1) := by
  decide

/-- C1 (amended): every delivery of a master execution to an ACTIVE copier
inserts a FRESH master `Trade` row — there is no uniqueness constraint on
`externalTradeId`, so a redelivery adds a second row rather than conflicting —
and writes one more `TradeMapping` for every active follower whose risk gate
is off and whose scaled quantity is positive; hence two deliveries of the same
external trade id yield two master rows and two mappings (two orders) per such
follower. -/
theorem C1_amended (place : String → TradeOrder → Except String TradeExecution)
    (copier : Copier) (e : MasterExecution) (ds now : Int)
    (hA : copier.status = CopierStatus.ACTIVE)
    (hns : ∀ cs3 ∈ activeSlaveConfigs copier,
      cs3.config.slaveAccountId ≠ copier.masterAccountId)
    (hnodup : ((activeSlaveConfigs copier).map
      (fun cs3 => cs3.config.slaveAccountId)).Nodup) :
  (∀ db : EngineDB,
    countMasterTrades (handleMasterTrade place copier e ds now db)
        copier.masterAccountId e.tradeId
      = countMasterTrades db copier.masterAccountId e.tradeId + 1)
  ∧ (∀ db : EngineDB,
    countMasterTrades (handleMasterTrade place copier e ds now
        (handleMasterTrade place copier e ds now db))
        copier.masterAccountId e.tradeId
      = countMasterTrades db copier.masterAccountId e.tradeId + 2)
  ∧ (∀ (db : EngineDB) (cs : CopierSlave), cs ∈ activeSlaveConfigs copier →
      cs.config.dailyLossLimit = none →
      0 < calculateScaledQuantity e.quantity cs.config cs.account →
      countMappingsFor (handleMasterTrade place copier e ds now db)
          cs.config.slaveAccountId
        = countMappingsFor db cs.config.slaveAccountId + 1)
  ∧ (∀ (db : EngineDB) (cs : CopierSlave), cs ∈ activeSlaveConfigs copier →
      cs.config.dailyLossLimit = none →
      0 < calculateScaledQuantity e.quantity cs.config cs.account →
      countMappingsFor (handleMasterTrade place copier e ds now
          (handleMasterTrade place copier e ds now db))
          cs.config.slaveAccountId
        = countMappingsFor db cs.config.slaveAccountId + 2) := by
  have hmaster : ∀ db : EngineDB,
      countMasterTrades (handleMasterTrade place copier e ds now db)
          copier.masterAccountId e.tradeId
        = countMasterTrades db copier.masterAccountId e.tradeId + 1 := by
    intro db
    unfold handleMasterTrade
    rw [if_neg (by simp [hA])]
    unfold countMasterTrades
    rw [foldl_applyOutcome_trades]
    rw [List.countP_append]
    have hjoin : ((fanOut place
        (db.trades ++ [masterTradeOf copier e (genTradeId db.nextId) now]) copier
        (masterTradeOf copier e (genTradeId db.nextId) now) ds now).map
          CopyOutcome.newTrades).flatten.countP
        (fun t => t.accountId == copier.masterAccountId
          && t.externalTradeId == some e.tradeId) = 0 := by
      apply List.countP_eq_zero.mpr
      intro t ht
      obtain ⟨lt, hlt, hmem⟩ := List.mem_flatten.mp ht
      obtain ⟨o, ho, rfl⟩ := List.mem_map.mp hlt
      obtain ⟨cs3, hcs3, rfl⟩ := List.mem_map.mp ho
      have hacc := copyTradeToSlave_newTrades_account place _ copier.id _ cs3.config
        cs3.account ds now _ t hmem
      have hne : t.accountId ≠ copier.masterAccountId := by
        rw [hacc]
        exact hns cs3 hcs3
      simp [beq_eq_false_iff_ne.mpr hne]
    rw [hjoin]
    rw [List.countP_append]
    have hone : List.countP
        (fun t => t.accountId == copier.masterAccountId
          && t.externalTradeId == some e.tradeId)
        [masterTradeOf copier e (genTradeId db.nextId) now] = 1 := by
      simp [List.countP_cons, masterTradeOf]
    rw [hone]
  have hmapping : ∀ (db : EngineDB) (cs : CopierSlave), cs ∈ activeSlaveConfigs copier →
      cs.config.dailyLossLimit = none →
      0 < calculateScaledQuantity e.quantity cs.config cs.account →
      countMappingsFor (handleMasterTrade place copier e ds now db)
          cs.config.slaveAccountId
        = countMappingsFor db cs.config.slaveAccountId + 1 := by
    intro db cs hcs hgate hq
    unfold handleMasterTrade
    rw [if_neg (by simp [hA])]
    unfold countMappingsFor
    rw [foldl_applyOutcome_mappings]
    rw [List.countP_append]
    have hjoin : ((fanOut place
        (db.trades ++ [masterTradeOf copier e (genTradeId db.nextId) now]) copier
        (masterTradeOf copier e (genTradeId db.nextId) now) ds now).map
          CopyOutcome.newMappings).flatten.countP
        (fun m => m.slaveAccountId == cs.config.slaveAccountId) = 1 := by
      rw [List.countP_flatten]
      unfold fanOut
      rw [List.map_map, List.map_map]
      rw [sum_map_eq_single (activeSlaveConfigs copier) _
        (fun cs3 => cs3.config.slaveAccountId) cs hcs hnodup]
      · simp only [Function.comp]
        have hrisk : (checkRiskRules
            (db.trades ++ [masterTradeOf copier e (genTradeId db.nextId) now])
            copier.id cs.config ds).1.allowed = true := by
          simp [checkRiskRules, jsNumTruthy, hgate]
        have hq2 : 0 < calculateScaledQuantity
            (masterTradeOf copier e (genTradeId db.nextId) now).quantity
            cs.config cs.account := hq
        have hlen := copyTradeToSlave_newMappings_length place
          (db.trades ++ [masterTradeOf copier e (genTradeId db.nextId) now])
          copier.id (masterTradeOf copier e (genTradeId db.nextId) now)
          cs.config cs.account ds now
          ((masterTradeOf copier e (genTradeId db.nextId) now).id ++ "-"
            ++ cs.config.slaveAccountId) hrisk hq2
        rw [List.countP_eq_length.mpr, hlen]
        intro m hm
        have := copyTradeToSlave_newMappings_account place _ copier.id _ cs.config
          cs.account ds now _ m hm
        simp [this]
      · intro cs3 hcs3 hkey
        simp only [Function.comp]
        apply List.countP_eq_zero.mpr
        intro m hm
        have := copyTradeToSlave_newMappings_account place _ copier.id _ cs3.config
          cs3.account ds now _ m hm
        rw [show m.slaveAccountId = cs3.config.slaveAccountId from this]
        simp [beq_eq_false_iff_ne.mpr hkey]
    rw [hjoin]
  refine ⟨hmaster, ?_, hmapping, ?_⟩
  · intro db
    rw [hmaster, hmaster]
  · intro db cs hcs hgate hq
    rw [hmapping _ cs hcs hgate hq, hmapping db cs hcs hgate hq]

/-- Closed witness for `C1_amended` on the sample copier and execution. -/
theorem C1_amended_witness :
  copier1.status = CopierStatus.ACTIVE
  ∧ countMasterTrades (handleMasterTrade okPlace copier1 exec1 0 1
      (handleMasterTrade okPlace copier1 exec1 0 1 db0)) copier1.masterAccountId exec1.tradeId
    = countMasterTrades db0 copier1.masterAccountId exec1.tradeId + 2 :=
  ⟨rfl, (C1_amended okPlace copier1 exec1 0 1 rfl (by decide) (by decide)).2.1 db0⟩
